import Mathlib

/-!
Shallow embedding of the MCP example servers of this repository:

  * src/projects/mcp-servers/simple-calculator/server.py (namespace `Calculator`)
  * src/projects/mcp-servers/template/server.py          (namespace `Template`)

The dynamically typed Python values that flow through the handlers are
modelled by `Val` (int, float, str).  Binary64 floats are abstracted to
exact rationals; this abstraction is exact on all values any stated
property evaluates (small integers, halves, exact divisions).  The
Python arithmetic operators, comparisons, `int()`, `str()` formatting,
`math.sqrt` and `math.factorial` are embedded as total functions into
`Except String _`, where `.error` models a raised exception carrying
`str(e)`.  `random.randint` is nondeterministic, so it is passed to the
calculator dispatch as an explicit oracle argument, and the template's
unrestricted `eval` is likewise passed as an oracle.
-/

/-- A dynamically typed Python value: an int, a float (abstracted to an
exact rational) or a str. -/
inductive Val where
  | int (i : Int)
  | float (q : ℚ)
  | str (s : String)
deriving DecidableEq

/-- The Python type name of a value, as it appears in error messages. -/
def typeName : Val → String
  | .int _ => "int"
  | .float _ => "float"
  | .str _ => "str"

/-- The numeric content of a value, when it has one. -/
def numVal : Val → Option ℚ
  | .int i => some (i : ℚ)
  | .float q => some q
  | .str _ => none

/-- Truncation toward zero, the behaviour of Python `int()` on a float
(`num / den` rounded toward zero). -/
def pyTrunc (q : ℚ) : Int :=
  if 0 ≤ q.num then ((q.num.toNat / q.den : Nat) : Int)
  else -(((-q.num).toNat / q.den : Nat) : Int)

/-- Python `int(v)`: ints unchanged, floats truncated toward zero,
strings parsed or `ValueError`. -/
def pyToInt : Val → Except String Int
  | .int i => .ok i
  | .float q => .ok (pyTrunc q)
  | .str s =>
      match s.toInt? with
      | some i => .ok i
      | none => .error ("invalid literal for int() with base 10: '" ++ s ++ "'")

/-- Left-pad a string with the character 0 to the given length. -/
def padZeros (s : String) (k : Nat) : String :=
  if s.length < k then String.mk (List.replicate (k - s.length) '0') ++ s else s

/-- Drop trailing 0 characters. -/
def dropTrailingZeros (s : String) : String :=
  String.mk (s.toList.reverse.dropWhile (fun c => c == '0')).reverse

/-- Fractional digit string of `fp` out of `10 ^ k`, with trailing zeros
stripped but at least one digit kept (Python prints `8.0`, `2.5`). -/
def fracDigits (fp k : Nat) : String :=
  let s := dropTrailingZeros (padZeros (toString fp) k)
  if s = "" then "0" else s

/-- `repr` of a nonnegative float whose exact value is the rational `q`,
in positional notation: the exact decimal expansion when `q` has one
(trailing zeros stripped, at least one fractional digit kept), a
fraction marker otherwise.  CPython prints the shortest decimal that
round-trips through binary64, switching to exponent notation below 1e-4
and at 1e16.  On a binary64-exact dyadic rational whose exact expansion
has at most 15 significant digits and whose magnitude is zero or lies in
[1e-4, 1e16), the shortest round-tripping decimal is that exact
expansion (distinct decimals of at most 15 significant digits round to
distinct binary64 values), so this definition agrees with CPython
exactly there.  Every theorem below quantifies float rendering only over
such values; rationals outside that domain (where binary64 rounds or
`repr` uses exponent notation) appear in no stated domain. -/
def floatReprNN (q : ℚ) : String :=
  match (List.range 40).find? (fun k => 10 ^ k % q.den == 0) with
  | some k =>
      let scaled := q.num.toNat * 10 ^ k / q.den
      toString (scaled / 10 ^ k) ++ "." ++ fracDigits (scaled % 10 ^ k) k
  | none => toString q.num ++ "/" ++ toString q.den

/-- `repr`/`str` of a float. -/
def floatRepr (q : ℚ) : String :=
  if q < 0 then "-" ++ floatReprNN (-q) else floatReprNN q

/-- Python `str(v)` as used by f-string interpolation. -/
def pyStr : Val → String
  | .int i => toString i
  | .float q => floatRepr q
  | .str s => s

/-- Python `a + b`: numeric addition with int/float promotion, string
concatenation, `TypeError` on mixed str/number operands.  Python int
addition is exact at every size; float addition is modelled exactly in
ℚ where binary64 rounds, so statements about float sums quantify only
over operands and sums inside the binary64-exact domain described at
`floatReprNN`. -/
def pyAdd : Val → Val → Except String Val
  | .int a, .int b => .ok (.int (a + b))
  | .int a, .float b => .ok (.float ((a : ℚ) + b))
  | .float a, .int b => .ok (.float (a + (b : ℚ)))
  | .float a, .float b => .ok (.float (a + b))
  | .str a, .str b => .ok (.str (a ++ b))
  | .str _, b => .error ("can only concatenate str (not \"" ++ typeName b ++ "\") to str")
  | a, b => .error ("unsupported operand type(s) for +: '" ++ typeName a ++ "' and '" ++ typeName b ++ "'")

/-- Python `a - b`. -/
def pySub : Val → Val → Except String Val
  | .int a, .int b => .ok (.int (a - b))
  | .int a, .float b => .ok (.float ((a : ℚ) - b))
  | .float a, .int b => .ok (.float (a - (b : ℚ)))
  | .float a, .float b => .ok (.float (a - b))
  | a, b => .error ("unsupported operand type(s) for -: '" ++ typeName a ++ "' and '" ++ typeName b ++ "'")

/-- Python `s * n` / `n * s` string repetition (empty for `n ≤ 0`). -/
def strRepeat (s : String) (n : Int) : String :=
  String.join (List.replicate n.toNat s)

/-- Python `a * b`: numeric product, int-by-string repetition,
`TypeError` otherwise. -/
def pyMul : Val → Val → Except String Val
  | .int a, .int b => .ok (.int (a * b))
  | .int a, .float b => .ok (.float ((a : ℚ) * b))
  | .float a, .int b => .ok (.float (a * (b : ℚ)))
  | .float a, .float b => .ok (.float (a * b))
  | .int n, .str s => .ok (.str (strRepeat s n))
  | .str s, .int n => .ok (.str (strRepeat s n))
  | .str _, .str _ => .error "can't multiply sequence by non-int of type 'str'"
  | _, _ => .error "can't multiply sequence by non-int of type 'float'"

/-- Python true division `a / b`: always produces a float,
`ZeroDivisionError` on a zero divisor, `TypeError` on strings.  The
quotient is modelled exactly in ℚ where binary64 rounds, so statements
about quotient values quantify only over exact integer quotients, where
binary64 division is exact. -/
def pyTrueDiv : Val → Val → Except String Val
  | .int a, .int b =>
      if b = 0 then .error "division by zero" else .ok (.float ((a : ℚ) / (b : ℚ)))
  | .int a, .float b =>
      if b = 0 then .error "float division by zero" else .ok (.float ((a : ℚ) / b))
  | .float a, .int b =>
      if b = 0 then .error "float division by zero" else .ok (.float (a / (b : ℚ)))
  | .float a, .float b =>
      if b = 0 then .error "float division by zero" else .ok (.float (a / b))
  | a, b => .error ("unsupported operand type(s) for /: '" ++ typeName a ++ "' and '" ++ typeName b ++ "'")

/-- Python `a ** b`.  Integral exponents are modelled exactly; a
non-integral float exponent produces an irrational (or complex) binary64
value outside the rational abstraction, rendered here as `0` — no stated
property depends on the numeric value of `power`. -/
def pyPow : Val → Val → Except String Val
  | .int a, .int b =>
      if 0 ≤ b then .ok (.int (a ^ b.toNat))
      else if a = 0 then .error "0.0 cannot be raised to a negative power"
      else .ok (.float ((a : ℚ) ^ b))
  | .int a, .float e =>
      if e.den = 1 then
        if 0 ≤ e.num then .ok (.float ((a : ℚ) ^ e.num.toNat))
        else if a = 0 then .error "0.0 cannot be raised to a negative power"
        else .ok (.float ((a : ℚ) ^ e.num))
      else .ok (.float 0)
  | .float a, .int b =>
      if 0 ≤ b then .ok (.float (a ^ b.toNat))
      else if a = 0 then .error "0.0 cannot be raised to a negative power"
      else .ok (.float (a ^ b))
  | .float a, .float e =>
      if e.den = 1 then
        if 0 ≤ e.num then .ok (.float (a ^ e.num.toNat))
        else if a = 0 then .error "0.0 cannot be raised to a negative power"
        else .ok (.float (a ^ e.num))
      else .ok (.float 0)
  | a, b => .error ("unsupported operand type(s) for ** or pow(): '" ++ typeName a ++ "' and '" ++ typeName b ++ "'")

/-- Python `a < b`: numeric comparison, lexicographic on two strings,
`TypeError` between a string and a number. -/
def pyLt (a b : Val) : Except String Bool :=
  match a, b with
  | .str s, .str t => .ok (decide (s < t))
  | _, _ =>
      match numVal a, numVal b with
      | some x, some y => .ok (decide (x < y))
      | _, _ => .error ("'<' not supported between instances of '" ++ typeName a ++ "' and '" ++ typeName b ++ "'")

/-- Python `a > b`. -/
def pyGt (a b : Val) : Except String Bool :=
  match a, b with
  | .str s, .str t => .ok (decide (t < s))
  | _, _ =>
      match numVal a, numVal b with
      | some x, some y => .ok (decide (y < x))
      | _, _ => .error ("'>' not supported between instances of '" ++ typeName a ++ "' and '" ++ typeName b ++ "'")

/-- Python `v == 0`: false (no exception) on a string. -/
def pyEqZero : Val → Bool
  | .int i => i == 0
  | .float q => q == 0
  | .str _ => false

/-- Exact rational square root; exact whenever numerator and denominator
are perfect squares, which covers every value any stated property
evaluates. -/
def ratSqrt (q : ℚ) : ℚ :=
  (Nat.sqrt q.num.toNat : ℚ) / (Nat.sqrt q.den : ℚ)

/-- Python `math.sqrt(v)`: returns a float, `ValueError` on negative
input, `TypeError` on a string. -/
def mathSqrt : Val → Except String Val
  | .str _ => .error "must be real number, not str"
  | .int i => if i < 0 then .error "math domain error" else .ok (.float (ratSqrt (i : ℚ)))
  | .float q => if q < 0 then .error "math domain error" else .ok (.float (ratSqrt q))

/-- Python `math.factorial(n)` on an int. -/
def mathFactorial (n : Int) : Except String Int :=
  if n < 0 then .error "factorial() not defined for negative values"
  else .ok (Nat.factorial n.toNat)

/-- Python `arguments.get(k, d)` on the argument mapping. -/
def getArg (args : List (String × Val)) (k : String) (d : Val) : Val :=
  (args.lookup k).getD d

/-- An mcp.types.TextContent block: `TextContent(type="text", text=...)`. -/
structure TextContent where
  type : String
  text : String
deriving DecidableEq

/-- An mcp.types.TextResourceContents block, which additionally carries
the URI it was read from. -/
structure TextResourceContents where
  type : String
  text : String
  uri : String
deriving DecidableEq

/-- An mcp.types.CallToolResult.  The servers never set `isError`, so it
keeps its default `false` (a successful, non-error envelope). -/
structure CallToolResult where
  content : List TextContent
  isError : Bool := false
deriving DecidableEq

/-- `CallToolResult(content=[TextContent(type="text", text=s)])`, the
shape of every return in both servers' `handle_call_tool`. -/
def textResult (s : String) : CallToolResult :=
  { content := [{ type := "text", text := s }] }

/-- One property of an inputSchema's `properties` object. -/
structure ParamSchema where
  type : String
  description : String
  default : Option Val := none
deriving DecidableEq

/-- A tool's `inputSchema` object. -/
structure InputSchema where
  type : String
  properties : List (String × ParamSchema)
  required : List String
deriving DecidableEq

/-- An mcp.types.Tool declaration. -/
structure Tool where
  name : String
  description : String
  inputSchema : InputSchema
deriving DecidableEq

/-- An mcp.types.Resource declaration. -/
structure Resource where
  uri : String
  name : String
  description : String
  mimeType : String
deriving DecidableEq

namespace Calculator

/-- The tool catalog returned by `handle_list_tools` of
simple-calculator/server.py, transcribed declaration by declaration. -/
def handle_list_tools : List Tool :=
  [ { name := "add",
      description := "Add two numbers together",
      inputSchema :=
        { type := "object",
          properties :=
            [ ("a", { type := "number", description := "First number to add" }),
              ("b", { type := "number", description := "Second number to add" }) ],
          required := ["a", "b"] } },
    { name := "subtract",
      description := "Subtract second number from first number",
      inputSchema :=
        { type := "object",
          properties :=
            [ ("a", { type := "number", description := "Number to subtract from" }),
              ("b", { type := "number", description := "Number to subtract" }) ],
          required := ["a", "b"] } },
    { name := "multiply",
      description := "Multiply two numbers",
      inputSchema :=
        { type := "object",
          properties :=
            [ ("a", { type := "number", description := "First number to multiply" }),
              ("b", { type := "number", description := "Second number to multiply" }) ],
          required := ["a", "b"] } },
    { name := "divide",
      description := "Divide first number by second number",
      inputSchema :=
        { type := "object",
          properties :=
            [ ("a", { type := "number", description := "Dividend (number to be divided)" }),
              ("b", { type := "number", description := "Divisor (number to divide by)" }) ],
          required := ["a", "b"] } },
    { name := "power",
      description := "Raise first number to the power of second number",
      inputSchema :=
        { type := "object",
          properties :=
            [ ("base", { type := "number", description := "Base number" }),
              ("exponent", { type := "number", description := "Exponent (power)" }) ],
          required := ["base", "exponent"] } },
    { name := "square_root",
      description := "Calculate the square root of a number",
      inputSchema :=
        { type := "object",
          properties :=
            [ ("number", { type := "number", description := "Number to find square root of" }) ],
          required := ["number"] } },
    { name := "random_number",
      description := "Generate a random number between min and max (inclusive)",
      inputSchema :=
        { type := "object",
          properties :=
            [ ("min", { type := "number", description := "Minimum value (inclusive)", default := some (.int 0) }),
              ("max", { type := "number", description := "Maximum value (inclusive)", default := some (.int 100) }) ],
          required := [] } },
    { name := "factorial",
      description := "Calculate the factorial of a number (n!)",
      inputSchema :=
        { type := "object",
          properties :=
            [ ("number", { type := "integer", description := "Number to calculate factorial for (must be non-negative)" }) ],
          required := ["number"] } } ]

/-- The body of `handle_call_tool` inside its `try:` block.  A `.error`
value is an exception escaping the dispatch chain toward the `except`
clause.  `randint` is the `random.randint` oracle. -/
def callToolBody (randint : Int → Int → Int) (name : String)
    (arguments : List (String × Val)) : Except String CallToolResult :=
  if name = "add" then
    let a := getArg arguments "a" (.int 0)
    let b := getArg arguments "b" (.int 0)
    match pyAdd a b with
    | .error e => .error e
    | .ok result => .ok (textResult (pyStr a ++ " + " ++ pyStr b ++ " = " ++ pyStr result))
  else if name = "subtract" then
    let a := getArg arguments "a" (.int 0)
    let b := getArg arguments "b" (.int 0)
    match pySub a b with
    | .error e => .error e
    | .ok result => .ok (textResult (pyStr a ++ " - " ++ pyStr b ++ " = " ++ pyStr result))
  else if name = "multiply" then
    let a := getArg arguments "a" (.int 0)
    let b := getArg arguments "b" (.int 0)
    match pyMul a b with
    | .error e => .error e
    | .ok result => .ok (textResult (pyStr a ++ " × " ++ pyStr b ++ " = " ++ pyStr result))
  else if name = "divide" then
    let a := getArg arguments "a" (.int 0)
    let b := getArg arguments "b" (.int 1)
    if pyEqZero b then
      .ok (textResult "Error: Division by zero is not allowed")
    else
      match pyTrueDiv a b with
      | .error e => .error e
      | .ok result => .ok (textResult (pyStr a ++ " ÷ " ++ pyStr b ++ " = " ++ pyStr result))
  else if name = "power" then
    let base := getArg arguments "base" (.int 0)
    let exponent := getArg arguments "exponent" (.int 1)
    match pyPow base exponent with
    | .error e => .error e
    | .ok result => .ok (textResult (pyStr base ++ "^" ++ pyStr exponent ++ " = " ++ pyStr result))
  else if name = "square_root" then
    let number := getArg arguments "number" (.int 0)
    match pyLt number (.int 0) with
    | .error e => .error e
    | .ok neg =>
      if neg then
        .ok (textResult "Error: Cannot calculate square root of negative number")
      else
        match mathSqrt number with
        | .error e => .error e
        | .ok result => .ok (textResult ("√" ++ pyStr number ++ " = " ++ pyStr result))
  else if name = "random_number" then
    let min_val := getArg arguments "min" (.int 0)
    let max_val := getArg arguments "max" (.int 100)
    match pyGt min_val max_val with
    | .error e => .error e
    | .ok crossed =>
      if crossed then
        .ok (textResult "Error: Minimum value cannot be greater than maximum value")
      else
        match pyToInt min_val with
        | .error e => .error e
        | .ok lo =>
          match pyToInt max_val with
          | .error e => .error e
          | .ok hi =>
            let result := randint lo hi
            .ok (textResult ("Random number between " ++ pyStr min_val ++ " and " ++ pyStr max_val ++ ": " ++ toString result))
  else if name = "factorial" then
    let number := getArg arguments "number" (.int 0)
    match pyLt number (.int 0) with
    | .error e => .error e
    | .ok neg =>
      if neg then
        .ok (textResult "Error: Factorial is not defined for negative numbers")
      else
        match pyGt number (.int 170) with
        | .error e => .error e
        | .ok big =>
          if big then
            .ok (textResult "Error: Number too large for factorial calculation")
          else
            match pyToInt number with
            | .error e => .error e
            | .ok n =>
              match mathFactorial n with
              | .error e => .error e
              | .ok result => .ok (textResult (pyStr number ++ "! = " ++ toString result))
  else
    .ok (textResult ("Unknown tool: " ++ name))

/-- `handle_call_tool` of simple-calculator/server.py: the dispatch body
wrapped in the `try ... except Exception as e` failure boundary, which
converts any exception into the `Error: {str(e)}` content block. -/
def handle_call_tool (randint : Int → Int → Int) (name : String)
    (arguments : List (String × Val)) : CallToolResult :=
  match callToolBody randint name arguments with
  | .ok r => r
  | .error e => textResult ("Error: " ++ e)

end Calculator

namespace Calculator

/-- The resource catalog returned by `handle_list_resources` of
simple-calculator/server.py. -/
def handle_list_resources : List Resource :=
  [ { uri := "calculator://info",
      name := "Calculator Information",
      description := "Information about this simple calculator server",
      mimeType := "text/plain" },
    { uri := "calculator://help",
      name := "Help Documentation",
      description := "Detailed help and usage examples",
      mimeType := "text/markdown" },
    { uri := "calculator://examples",
      name := "Usage Examples",
      description := "Example calculations and tool usage",
      mimeType := "text/markdown" } ]

def infoText : String :=
  "\n"
  ++ "Simple Calculator MCP Server\n"
  ++ "============================\n"
  ++ "\n"
  ++ "This is an educational MCP server that demonstrates:\n"
  ++ "- Basic tool implementation\n"
  ++ "- Input validation and error handling\n"
  ++ "- Mathematical operations\n"
  ++ "- Resource management\n"
  ++ "- Logging and debugging\n"
  ++ "\n"
  ++ "Version: 1.0.0\n"
  ++ "Author: MCP Learning Project\n"
  ++ "\n"
  ++ "Available Tools:\n"
  ++ "- add: Add two numbers\n"
  ++ "- subtract: Subtract two numbers  \n"
  ++ "- multiply: Multiply two numbers\n"
  ++ "- divide: Divide two numbers\n"
  ++ "- power: Raise to power\n"
  ++ "- square_root: Calculate square root\n"
  ++ "- random_number: Generate random number\n"
  ++ "- factorial: Calculate factorial\n"
  ++ ""

def helpText : String :=
  "\n"
  ++ "# Simple Calculator MCP Server Help\n"
  ++ "\n"
  ++ "## Available Tools\n"
  ++ "\n"
  ++ "### Basic Arithmetic\n"
  ++ "\n"
  ++ "#### add\n"
  ++ "Add two numbers together.\n"
  ++ "\n"
  ++ "**Parameters:**\n"
  ++ "- `a` (number): First number to add\n"
  ++ "- `b` (number): Second number to add\n"
  ++ "\n"
  ++ "**Example:**\n"
  ++ "```json\n"
  ++ "\x7b\n"
  ++ "  \"a\": 5,\n"
  ++ "  \"b\": 3\n"
  ++ "\x7d\n"
  ++ "```\n"
  ++ "**Result:** `5 + 3 = 8`\n"
  ++ "\n"
  ++ "#### subtract\n"
  ++ "Subtract second number from first number.\n"
  ++ "\n"
  ++ "**Parameters:**\n"
  ++ "- `a` (number): Number to subtract from\n"
  ++ "- `b` (number): Number to subtract\n"
  ++ "\n"
  ++ "**Example:**\n"
  ++ "```json\n"
  ++ "\x7b\n"
  ++ "  \"a\": 10,\n"
  ++ "  \"b\": 4\n"
  ++ "\x7d\n"
  ++ "```\n"
  ++ "**Result:** `10 - 4 = 6`\n"
  ++ "\n"
  ++ "#### multiply\n"
  ++ "Multiply two numbers.\n"
  ++ "\n"
  ++ "**Parameters:**\n"
  ++ "- `a` (number): First number to multiply\n"
  ++ "- `b` (number): Second number to multiply\n"
  ++ "\n"
  ++ "**Example:**\n"
  ++ "```json\n"
  ++ "\x7b\n"
  ++ "  \"a\": 6,\n"
  ++ "  \"b\": 7\n"
  ++ "\x7d\n"
  ++ "```\n"
  ++ "**Result:** `6 × 7 = 42`\n"
  ++ "\n"
  ++ "#### divide\n"
  ++ "Divide first number by second number.\n"
  ++ "\n"
  ++ "**Parameters:**\n"
  ++ "- `a` (number): Dividend (number to be divided)\n"
  ++ "- `b` (number): Divisor (number to divide by)\n"
  ++ "\n"
  ++ "**Example:**\n"
  ++ "```json\n"
  ++ "\x7b\n"
  ++ "  \"a\": 15,\n"
  ++ "  \"b\": 3\n"
  ++ "\x7d\n"
  ++ "```\n"
  ++ "**Result:** `15 ÷ 3 = 5`\n"
  ++ "\n"
  ++ "**Note:** Division by zero will return an error.\n"
  ++ "\n"
  ++ "### Advanced Operations\n"
  ++ "\n"
  ++ "#### power\n"
  ++ "Raise first number to the power of second number.\n"
  ++ "\n"
  ++ "**Parameters:**\n"
  ++ "- `base` (number): Base number\n"
  ++ "- `exponent` (number): Exponent (power)\n"
  ++ "\n"
  ++ "**Example:**\n"
  ++ "```json\n"
  ++ "\x7b\n"
  ++ "  \"base\": 2,\n"
  ++ "  \"exponent\": 8\n"
  ++ "\x7d\n"
  ++ "```\n"
  ++ "**Result:** `2^8 = 256`\n"
  ++ "\n"
  ++ "#### square_root\n"
  ++ "Calculate the square root of a number.\n"
  ++ "\n"
  ++ "**Parameters:**\n"
  ++ "- `number` (number): Number to find square root of\n"
  ++ "\n"
  ++ "**Example:**\n"
  ++ "```json\n"
  ++ "\x7b\n"
  ++ "  \"number\": 64\n"
  ++ "\x7d\n"
  ++ "```\n"
  ++ "**Result:** `√64 = 8.0`\n"
  ++ "\n"
  ++ "**Note:** Negative numbers will return an error.\n"
  ++ "\n"
  ++ "#### factorial\n"
  ++ "Calculate the factorial of a number (n!).\n"
  ++ "\n"
  ++ "**Parameters:**\n"
  ++ "- `number` (integer): Number to calculate factorial for\n"
  ++ "\n"
  ++ "**Example:**\n"
  ++ "```json\n"
  ++ "\x7b\n"
  ++ "  \"number\": 5\n"
  ++ "\x7d\n"
  ++ "```\n"
  ++ "**Result:** `5! = 120`\n"
  ++ "\n"
  ++ "**Note:** Only non-negative integers are supported.\n"
  ++ "\n"
  ++ "#### random_number\n"
  ++ "Generate a random number between min and max (inclusive).\n"
  ++ "\n"
  ++ "**Parameters:**\n"
  ++ "- `min` (number, optional): Minimum value (default: 0)\n"
  ++ "- `max` (number, optional): Maximum value (default: 100)\n"
  ++ "\n"
  ++ "**Example:**\n"
  ++ "```json\n"
  ++ "\x7b\n"
  ++ "  \"min\": 1,\n"
  ++ "  \"max\": 10\n"
  ++ "\x7d\n"
  ++ "```\n"
  ++ "**Result:** `Random number between 1 and 10: 7`\n"
  ++ "\n"
  ++ "## Available Resources\n"
  ++ "\n"
  ++ "- `calculator://info` - Server information\n"
  ++ "- `calculator://help` - This help documentation  \n"
  ++ "- `calculator://examples` - Usage examples\n"
  ++ "\n"
  ++ "## Error Handling\n"
  ++ "\n"
  ++ "This server includes comprehensive error handling for:\n"
  ++ "- Division by zero\n"
  ++ "- Square root of negative numbers\n"
  ++ "- Factorial of negative numbers\n"
  ++ "- Invalid input ranges\n"
  ++ "- Unknown tool names\n"
  ++ "\n"
  ++ "## Usage\n"
  ++ "\n"
  ++ "Configure this server in your MCP client and start performing calculations!\n"
  ++ ""

def examplesText : String :=
  "\n"
  ++ "# Calculator Usage Examples\n"
  ++ "\n"
  ++ "## Basic Arithmetic Examples\n"
  ++ "\n"
  ++ "### Addition\n"
  ++ "```json\n"
  ++ "\x7b\"tool\": \"add\", \"arguments\": \x7b\"a\": 25, \"b\": 17\x7d\x7d\n"
  ++ "```\n"
  ++ "Result: `25 + 17 = 42`\n"
  ++ "\n"
  ++ "### Subtraction  \n"
  ++ "```json\n"
  ++ "\x7b\"tool\": \"subtract\", \"arguments\": \x7b\"a\": 100, \"b\": 23\x7d\x7d\n"
  ++ "```\n"
  ++ "Result: `100 - 23 = 77`\n"
  ++ "\n"
  ++ "### Multiplication\n"
  ++ "```json\n"
  ++ "\x7b\"tool\": \"multiply\", \"arguments\": \x7b\"a\": 12, \"b\": 8\x7d\x7d\n"
  ++ "```\n"
  ++ "Result: `12 × 8 = 96`\n"
  ++ "\n"
  ++ "### Division\n"
  ++ "```json\n"
  ++ "\x7b\"tool\": \"divide\", \"arguments\": \x7b\"a\": 144, \"b\": 12\x7d\x7d\n"
  ++ "```\n"
  ++ "Result: `144 ÷ 12 = 12.0`\n"
  ++ "\n"
  ++ "## Advanced Examples\n"
  ++ "\n"
  ++ "### Powers\n"
  ++ "```json\n"
  ++ "\x7b\"tool\": \"power\", \"arguments\": \x7b\"base\": 3, \"exponent\": 4\x7d\x7d\n"
  ++ "```\n"
  ++ "Result: `3^4 = 81`\n"
  ++ "\n"
  ++ "### Square Roots\n"
  ++ "```json\n"
  ++ "\x7b\"tool\": \"square_root\", \"arguments\": \x7b\"number\": 121\x7d\x7d\n"
  ++ "```\n"
  ++ "Result: `√121 = 11.0`\n"
  ++ "\n"
  ++ "### Factorials\n"
  ++ "```json\n"
  ++ "\x7b\"tool\": \"factorial\", \"arguments\": \x7b\"number\": 6\x7d\x7d\n"
  ++ "```\n"
  ++ "Result: `6! = 720`\n"
  ++ "\n"
  ++ "### Random Numbers\n"
  ++ "```json\n"
  ++ "\x7b\"tool\": \"random_number\", \"arguments\": \x7b\"min\": 1, \"max\": 20\x7d\x7d\n"
  ++ "```\n"
  ++ "Result: `Random number between 1 and 20: 13`\n"
  ++ "\n"
  ++ "## Error Examples\n"
  ++ "\n"
  ++ "### Division by Zero\n"
  ++ "```json\n"
  ++ "\x7b\"tool\": \"divide\", \"arguments\": \x7b\"a\": 10, \"b\": 0\x7d\x7d\n"
  ++ "```\n"
  ++ "Result: `Error: Division by zero is not allowed`\n"
  ++ "\n"
  ++ "### Negative Square Root\n"
  ++ "```json\n"
  ++ "\x7b\"tool\": \"square_root\", \"arguments\": \x7b\"number\": -4\x7d\x7d\n"
  ++ "```\n"
  ++ "Result: `Error: Cannot calculate square root of negative number`\n"
  ++ "\n"
  ++ "### Negative Factorial\n"
  ++ "```json\n"
  ++ "\x7b\"tool\": \"factorial\", \"arguments\": \x7b\"number\": -1\x7d\x7d\n"
  ++ "```\n"
  ++ "Result: `Error: Factorial is not defined for negative numbers`\n"
  ++ "\n"
  ++ "## Learning Notes\n"
  ++ "\n"
  ++ "This server demonstrates several important MCP concepts:\n"
  ++ "\n"
  ++ "1. **Tool Definition**: Each tool has a clear name, description, and input schema\n"
  ++ "2. **Input Validation**: The server checks for valid inputs and handles errors gracefully\n"
  ++ "3. **Error Handling**: Comprehensive error messages help users understand what went wrong\n"
  ++ "4. **Resource Management**: The server provides helpful documentation as resources\n"
  ++ "5. **Logging**: All operations are logged for debugging purposes\n"
  ++ "\n"
  ++ "Try experimenting with different values and see how the server responds!\n"
  ++ ""

/-- The result of `handle_read_resource` in the calculator server: a
list of `TextResourceContents`, each tagged with a URI. -/
structure ReadResourceResult where
  contents : List TextResourceContents
deriving DecidableEq

/-- The body of `handle_read_resource` inside its `try:` block.  The
body only constructs literal content, so no exception can arise; the
`Except` layer mirrors the source's `try` nonetheless. -/
def readResourceBody (uri : String) : Except String ReadResourceResult :=
  if uri = "calculator://info" then
    .ok { contents := [{ type := "text", text := infoText, uri := uri }] }
  else if uri = "calculator://help" then
    .ok { contents := [{ type := "text", text := helpText, uri := uri }] }
  else if uri = "calculator://examples" then
    .ok { contents := [{ type := "text", text := examplesText, uri := uri }] }
  else
    .ok { contents := [{ type := "text", text := "Resource not found: " ++ uri, uri := uri }] }

/-- `handle_read_resource` of simple-calculator/server.py, the body
wrapped in its `try ... except` failure boundary. -/
def handle_read_resource (uri : String) : ReadResourceResult :=
  match readResourceBody uri with
  | .ok r => r
  | .error e => { contents := [{ type := "text", text := "Error: " ++ e, uri := uri }] }

end Calculator

namespace Template

/-- The tool catalog returned by `handle_list_tools` of
template/server.py. -/
def handle_list_tools : List Tool :=
  [ { name := "echo",
      description := "Echo back the provided text",
      inputSchema :=
        { type := "object",
          properties :=
            [ ("text", { type := "string", description := "Text to echo back" }) ],
          required := ["text"] } },
    { name := "calculate",
      description := "Perform basic arithmetic calculations",
      inputSchema :=
        { type := "object",
          properties :=
            [ ("expression", { type := "string", description := "Mathematical expression to evaluate (e.g., '2 + 2')" }) ],
          required := ["expression"] } } ]

/-- The body of the template server's `handle_call_tool` inside its
outer `try:` block.  The unrestricted Python `eval` of the `calculate`
branch has no specifiable semantics, so it is passed in as the oracle
`ev`; its inner `try ... except` is modelled by the match on the
oracle's outcome. -/
def callToolBody (ev : Val → Except String Val) (name : String)
    (arguments : List (String × Val)) : Except String CallToolResult :=
  if name = "echo" then
    let text := getArg arguments "text" (.str "")
    .ok (textResult ("Echo: " ++ pyStr text))
  else if name = "calculate" then
    let expression := getArg arguments "expression" (.str "")
    match ev expression with
    | .ok result => .ok (textResult ("Result: " ++ pyStr result))
    | .error e => .ok (textResult ("Error: " ++ e))
  else
    .ok (textResult ("Unknown tool: " ++ name))

/-- `handle_call_tool` of template/server.py: the body wrapped in the
outer `try ... except Exception as e` failure boundary. -/
def handle_call_tool (ev : Val → Except String Val) (name : String)
    (arguments : List (String × Val)) : CallToolResult :=
  match callToolBody ev name arguments with
  | .ok r => r
  | .error e => textResult ("Error: " ++ e)

/-- The resource catalog returned by `handle_list_resources` of
template/server.py. -/
def handle_list_resources : List Resource :=
  [ { uri := "template://info",
      name := "Server Information",
      description := "Information about this template server",
      mimeType := "text/plain" },
    { uri := "template://help",
      name := "Help Documentation",
      description := "Help and usage information",
      mimeType := "text/markdown" } ]

def infoText : String :=
  "\n"
  ++ "MCP Server Template\n"
  ++ "==================\n"
  ++ "\n"
  ++ "This is a template MCP server that demonstrates:\n"
  ++ "- Basic tool implementation\n"
  ++ "- Resource handling\n"
  ++ "- Error management\n"
  ++ "- Logging and debugging\n"
  ++ "\n"
  ++ "Version: 1.0.0\n"
  ++ "Author: Template Author\n"
  ++ ""

def helpText : String :=
  "\n"
  ++ "# MCP Server Template Help\n"
  ++ "\n"
  ++ "## Available Tools\n"
  ++ "\n"
  ++ "### echo\n"
  ++ "Echo back the provided text.\n"
  ++ "\n"
  ++ "**Parameters:**\n"
  ++ "- `text` (string): Text to echo back\n"
  ++ "\n"
  ++ "**Example:**\n"
  ++ "```json\n"
  ++ "\x7b\n"
  ++ "  \"text\": \"Hello, World!\"\n"
  ++ "\x7d\n"
  ++ "```\n"
  ++ "\n"
  ++ "### calculate\n"
  ++ "Perform basic arithmetic calculations.\n"
  ++ "\n"
  ++ "**Parameters:**\n"
  ++ "- `expression` (string): Mathematical expression to evaluate\n"
  ++ "\n"
  ++ "**Example:**\n"
  ++ "```json\n"
  ++ "\x7b\n"
  ++ "  \"expression\": \"2 + 2 * 3\"\n"
  ++ "\x7d\n"
  ++ "```\n"
  ++ "\n"
  ++ "## Available Resources\n"
  ++ "\n"
  ++ "- `template://info` - Server information\n"
  ++ "- `template://help` - This help documentation\n"
  ++ "\n"
  ++ "## Usage\n"
  ++ "\n"
  ++ "Configure this server in your MCP client and start using the tools and resources.\n"
  ++ ""

/-- The result of `handle_read_resource` in the template server.  Unlike
the calculator server, the template constructs its contents from plain
`TextContent` blocks, which carry no URI field. -/
structure ReadResourceResult where
  contents : List TextContent
deriving DecidableEq

/-- The body of the template server's `handle_read_resource` inside its
`try:` block. -/
def readResourceBody (uri : String) : Except String ReadResourceResult :=
  if uri = "template://info" then
    .ok { contents := [{ type := "text", text := infoText }] }
  else if uri = "template://help" then
    .ok { contents := [{ type := "text", text := helpText }] }
  else
    .ok { contents := [{ type := "text", text := "Resource not found: " ++ uri }] }

/-- `handle_read_resource` of template/server.py, body wrapped in its
`try ... except` failure boundary. -/
def handle_read_resource (uri : String) : ReadResourceResult :=
  match readResourceBody uri with
  | .ok r => r
  | .error e => { contents := [{ type := "text", text := "Error: " ++ e }] }

end Template

/-- A call request: tool name plus argument mapping. -/
structure CallRequest where
  toolName : String
  arguments : List (String × Val)

/-- Sequential processing of a session's call requests by the calculator
server: the serving loop applies `handle_call_tool` to each request in
arrival order. -/
def processRequests (randint : Int → Int → Int) (reqs : List CallRequest) :
    List CallToolResult :=
  reqs.map (fun r => Calculator.handle_call_tool randint r.toolName r.arguments)

/-- A deterministic instantiation of the `random.randint` oracle, used
only to state closed concrete-input theorems. -/
def idRandint : Int → Int → Int := fun lo _ => lo

/-- An `eval` oracle that evaluates every expression to the value
itself; used only to state closed concrete-input theorems. -/
def okEval : Val → Except String Val := fun v => Except.ok v

/-- C5: calling the tool `add` with arguments a = 5 and b = 3 returns a
successful envelope whose single text content block equals "5 + 3 = 8";
in general calling `add` returns the text "<a> + <b> = <a+b>": for all
Python ints (int arithmetic and printing are exact at every size), and
for every int/float combination inside the binary64-exact domain —
dyadic floats with denominator dividing 1024 and magnitude at most 5000
(ints likewise bounded when a float is involved, since they are promoted
to binary64), where the operands, the sum and their `repr`s are all
exact, per `floatReprNN`. -/
theorem c5_add_tool :
    (∀ randint, Calculator.handle_call_tool randint "add"
        [("a", Val.int 5), ("b", Val.int 3)] = textResult "5 + 3 = 8") ∧
    (∀ randint (a b : Int), Calculator.handle_call_tool randint "add"
        [("a", Val.int a), ("b", Val.int b)] =
      textResult (toString a ++ " + " ++ toString b ++ " = " ++ toString (a + b))) ∧
    (∀ randint (a b : ℚ), a.den ∣ 1024 → b.den ∣ 1024 →
        -5000 ≤ a → a ≤ 5000 → -5000 ≤ b → b ≤ 5000 →
        Calculator.handle_call_tool randint "add"
            [("a", Val.float a), ("b", Val.float b)] =
          textResult (floatRepr a ++ " + " ++ floatRepr b ++ " = " ++ floatRepr (a + b))) ∧
    (∀ randint (a : Int) (b : ℚ), b.den ∣ 1024 →
        -5000 ≤ a → a ≤ 5000 → -5000 ≤ b → b ≤ 5000 →
        Calculator.handle_call_tool randint "add"
            [("a", Val.int a), ("b", Val.float b)] =
          textResult (toString a ++ " + " ++ floatRepr b ++ " = " ++ floatRepr ((a : ℚ) + b))) ∧
    (∀ randint (a : ℚ) (b : Int), a.den ∣ 1024 →
        -5000 ≤ a → a ≤ 5000 → -5000 ≤ b → b ≤ 5000 →
        Calculator.handle_call_tool randint "add"
            [("a", Val.float a), ("b", Val.int b)] =
          textResult (floatRepr a ++ " + " ++ toString b ++ " = " ++ floatRepr (a + (b : ℚ)))) := by
  refine ⟨?_, ?_, ?_, ?_, ?_⟩
  · intro randint; rfl
  · intro randint a b; rfl
  · intro randint a b _ _ _ _ _ _; rfl
  · intro randint a b _ _ _ _ _; rfl
  · intro randint a b _ _ _ _ _; rfl

/-- Witness for C5's float conjuncts at 0.5 + 2.5, 5 + 2.5 and 2.5 + 3
(all binary64-exact; CPython prints exactly these strings). -/
theorem c5_add_tool_witness :
    Calculator.handle_call_tool idRandint "add"
        [("a", Val.float (mkRat 1 2)), ("b", Val.float (mkRat 5 2))] =
      textResult "0.5 + 2.5 = 3.0" ∧
    Calculator.handle_call_tool idRandint "add"
        [("a", Val.int 5), ("b", Val.float (mkRat 5 2))] =
      textResult "5 + 2.5 = 7.5" ∧
    Calculator.handle_call_tool idRandint "add"
        [("a", Val.float (mkRat 5 2)), ("b", Val.int 3)] =
      textResult "2.5 + 3 = 5.5" :=
  ⟨(c5_add_tool.2.2.1 idRandint (mkRat 1 2) (mkRat 5 2) (by decide) (by decide)
      (by decide) (by decide) (by decide) (by decide)).trans (by
        rw [show (mkRat 1 2 + mkRat 5 2 : ℚ) = 3 by
          rw [Rat.mkRat_eq_div, Rat.mkRat_eq_div]; norm_num]
        decide),
   (c5_add_tool.2.2.2.1 idRandint 5 (mkRat 5 2) (by decide) (by decide) (by decide)
      (by decide) (by decide)).trans (by
        rw [show ((5 : ℤ) : ℚ) + mkRat 5 2 = mkRat 15 2 by
          rw [Rat.mkRat_eq_div, Rat.mkRat_eq_div]; norm_num]
        decide),
   (c5_add_tool.2.2.2.2 idRandint (mkRat 5 2) 3 (by decide) (by decide) (by decide)
      (by decide) (by decide)).trans (by
        rw [show mkRat 5 2 + ((3 : ℤ) : ℚ) = mkRat 11 2 by
          rw [Rat.mkRat_eq_div, Rat.mkRat_eq_div]; norm_num]
        decide)⟩

/-- C6: calling the tool `echo` with argument text = "hi" returns a
successful envelope whose single text content block equals "Echo: hi";
in general, for every string s, calling `echo` with text = s returns
"Echo: " followed by s. -/
theorem c6_echo_tool :
    (∀ ev, Template.handle_call_tool ev "echo" [("text", Val.str "hi")] =
      textResult "Echo: hi") ∧
    (∀ ev (s : String), Template.handle_call_tool ev "echo" [("text", Val.str s)] =
      textResult ("Echo: " ++ s)) := by
  constructor
  · intro ev; rfl
  · intro ev s; rfl

/-- C1 counterexample: calling `add` with arguments containing only
a = 10 (no `b`) does not produce a validation failure naming `b` — the
handler is invoked with the fallback default b = 0 and returns the
successful arithmetic result "10 + 0 = 10". -/
theorem c1_counterexample :
    Calculator.callToolBody idRandint "add" [("a", Val.int 10)] =
        Except.ok (textResult "10 + 0 = 10") ∧
    Calculator.handle_call_tool idRandint "add" [("a", Val.int 10)] =
        textResult "10 + 0 = 10" := by
  exact ⟨rfl, rfl⟩

/-- C1 amended: the server performs no schema validation; a CallTool
request that omits a declared-required parameter still invokes the
handler, with the missing parameter replaced by the branch's hard-coded
fallback (`arguments.get("b", 0)`), so `add` with only a present
returns "<a> + 0 = <a>". -/
theorem c1_amended_fallback_default :
    ∀ randint (a : Int),
      Calculator.handle_call_tool randint "add" [("a", Val.int a)] =
        textResult (toString a ++ " + " ++ "0" ++ " = " ++ toString a) := by
  intro randint a
  have h : Calculator.handle_call_tool randint "add" [("a", Val.int a)] =
      textResult (toString a ++ " + " ++ "0" ++ " = " ++ toString (a + 0)) := rfl
  rw [h, Int.add_zero]

/-- C2: for every CallTool request whose tool name is not in the
registered catalog, both servers return a successful (non-error)
envelope whose single text content block equals "Unknown tool: <name>";
the dispatch body raises nothing (no protocol-level error). -/
theorem c2_unknown_tool :
    (∀ randint name args, name ∉ Calculator.handle_list_tools.map Tool.name →
        Calculator.callToolBody randint name args =
          Except.ok (textResult ("Unknown tool: " ++ name)) ∧
        Calculator.handle_call_tool randint name args =
          textResult ("Unknown tool: " ++ name)) ∧
    (∀ ev name args, name ∉ Template.handle_list_tools.map Tool.name →
        Template.callToolBody ev name args =
          Except.ok (textResult ("Unknown tool: " ++ name)) ∧
        Template.handle_call_tool ev name args =
          textResult ("Unknown tool: " ++ name)) := by
  constructor
  · intro randint name args h
    have h' : ¬(name = "add" ∨ name = "subtract" ∨ name = "multiply" ∨ name = "divide" ∨
        name = "power" ∨ name = "square_root" ∨ name = "random_number" ∨ name = "factorial") := by
      simpa [Calculator.handle_list_tools] using h
    push_neg at h'
    obtain ⟨h1, h2, h3, h4, h5, h6, h7, h8⟩ := h'
    have hbody : Calculator.callToolBody randint name args =
        Except.ok (textResult ("Unknown tool: " ++ name)) := by
      unfold Calculator.callToolBody
      rw [if_neg h1, if_neg h2, if_neg h3, if_neg h4, if_neg h5, if_neg h6, if_neg h7, if_neg h8]
    exact ⟨hbody, by unfold Calculator.handle_call_tool; rw [hbody]⟩
  · intro ev name args h
    have h' : ¬(name = "echo" ∨ name = "calculate") := by
      simpa [Template.handle_list_tools] using h
    push_neg at h'
    obtain ⟨h1, h2⟩ := h'
    have hbody : Template.callToolBody ev name args =
        Except.ok (textResult ("Unknown tool: " ++ name)) := by
      unfold Template.callToolBody
      rw [if_neg h1, if_neg h2]
    exact ⟨hbody, by unfold Template.handle_call_tool; rw [hbody]⟩

/-- Witness for C2 at the concrete unregistered name "nonexistent". -/
theorem c2_unknown_tool_witness :
    Calculator.handle_call_tool idRandint "nonexistent" [] =
        textResult "Unknown tool: nonexistent" ∧
    Template.handle_call_tool okEval "nonexistent" [] =
        textResult "Unknown tool: nonexistent" :=
  ⟨(c2_unknown_tool.1 idRandint "nonexistent" [] (by decide)).2,
   (c2_unknown_tool.2 okEval "nonexistent" [] (by decide)).2⟩

/-- C3: whenever the dispatch body of `handle_call_tool` raises a fault,
the single `except` boundary converts it into a successful envelope
whose text is the non-empty message "Error: <fault>"; the fault is never
propagated (the result is an ordinary `CallToolResult`), and the serving
loop answers every request in a session, so subsequent requests are
still accepted.  The same holds for the template server's inner `eval`
boundary in the `calculate` branch. -/
theorem c3_fault_boundary :
    (∀ randint name args e,
        Calculator.callToolBody randint name args = Except.error e →
          Calculator.handle_call_tool randint name args = textResult ("Error: " ++ e) ∧
          0 < ("Error: " ++ e).length) ∧
    (∀ ev args e, ev (getArg args "expression" (Val.str "")) = Except.error e →
          Template.handle_call_tool ev "calculate" args = textResult ("Error: " ++ e) ∧
          0 < ("Error: " ++ e).length) ∧
    (∀ randint reqs, (processRequests randint reqs).length = reqs.length) := by
  refine ⟨?_, ?_, ?_⟩
  · intro randint name args e h
    refine ⟨by simp [Calculator.handle_call_tool, h], ?_⟩
    rw [String.length_append]
    have h7 : ("Error: " : String).length = 7 := rfl
    omega
  · intro ev args e h
    refine ⟨by simp [Template.handle_call_tool, Template.callToolBody, h], ?_⟩
    rw [String.length_append]
    have h7 : ("Error: " : String).length = 7 := rfl
    omega
  · intro randint reqs
    simp [processRequests]

/-- Witness for C3: a handler fault actually arises — `add` on a string
argument raises a TypeError, and a faulting `eval` oracle makes the
template's `calculate` branch fail; both are converted to error text. -/
theorem c3_fault_boundary_witness :
    Calculator.handle_call_tool idRandint "add" [("a", Val.str "x")] =
        textResult ("Error: " ++ "can only concatenate str (not \"int\") to str") ∧
    Template.handle_call_tool (fun _ => Except.error "boom") "calculate" [] =
        textResult ("Error: " ++ "boom") :=
  ⟨(c3_fault_boundary.1 idRandint "add" [("a", Val.str "x")]
      "can only concatenate str (not \"int\") to str" rfl).1,
   (c3_fault_boundary.2.1 (fun _ => Except.error "boom") [] "boom" rfl).1⟩

/-- C4 counterexample: the template server's miss branch does state
"Resource not found: <requested uri>", but its content blocks are plain
`TextContent` values, which carry no URI field at all — the result is
not tagged with the requested URI, refuting the claim's universal
tagging assertion. -/
theorem c4_counterexample :
    Template.readResourceBody "template://missing" =
      Except.ok { contents := [{ type := "text", text := "Resource not found: template://missing" }] } ∧
    Template.handle_read_resource "template://missing" =
      { contents := [{ type := "text", text := "Resource not found: template://missing" }] } :=
  ⟨rfl, rfl⟩

/-- C4 amended: on every ReadResource miss both servers answer with the
text "Resource not found: <uri>" built from the requested URI (never a
registered one); the calculator server additionally tags the content
block with the requested URI, while the template server's blocks carry
no URI tag. -/
theorem c4_amended_resource_miss :
    (∀ uri, uri ∉ Calculator.handle_list_resources.map Resource.uri →
        Calculator.handle_read_resource uri =
          { contents := [{ type := "text", text := "Resource not found: " ++ uri, uri := uri }] }) ∧
    (∀ uri, uri ∉ Template.handle_list_resources.map Resource.uri →
        Template.handle_read_resource uri =
          { contents := [{ type := "text", text := "Resource not found: " ++ uri }] }) := by
  constructor
  · intro uri h
    have h' : ¬(uri = "calculator://info" ∨ uri = "calculator://help" ∨
        uri = "calculator://examples") := by
      simpa [Calculator.handle_list_resources] using h
    push_neg at h'
    obtain ⟨h1, h2, h3⟩ := h'
    unfold Calculator.handle_read_resource Calculator.readResourceBody
    rw [if_neg h1, if_neg h2, if_neg h3]
  · intro uri h
    have h' : ¬(uri = "template://info" ∨ uri = "template://help") := by
      simpa [Template.handle_list_resources] using h
    push_neg at h'
    obtain ⟨h1, h2⟩ := h'
    unfold Template.handle_read_resource Template.readResourceBody
    rw [if_neg h1, if_neg h2]

/-- Witness for the amended C4 at the claim's concrete missing URIs. -/
theorem c4_amended_resource_miss_witness :
    Calculator.handle_read_resource "calculator://missing" =
      { contents := [{ type := "text", text := "Resource not found: calculator://missing", uri := "calculator://missing" }] } ∧
    Template.handle_read_resource "template://absent" =
      { contents := [{ type := "text", text := "Resource not found: template://absent" }] } :=
  ⟨c4_amended_resource_miss.1 "calculator://missing" (by decide),
   c4_amended_resource_miss.2 "template://absent" (by decide)⟩

/-- C7: ListTools returns exactly the registered catalog: each tool
name exactly once (no duplicates, none omitted, nothing unregistered),
in registration order, and each entry carries its declared description
and declared required-parameter schema. -/
theorem c7_list_tools_catalog :
    Calculator.handle_list_tools.map Tool.name =
        ["add", "subtract", "multiply", "divide", "power", "square_root",
         "random_number", "factorial"] ∧
    (Calculator.handle_list_tools.map Tool.name).Nodup ∧
    Calculator.handle_list_tools.map Tool.description =
        ["Add two numbers together", "Subtract second number from first number",
         "Multiply two numbers", "Divide first number by second number",
         "Raise first number to the power of second number",
         "Calculate the square root of a number",
         "Generate a random number between min and max (inclusive)",
         "Calculate the factorial of a number (n!)"] ∧
    Calculator.handle_list_tools.map (fun t => t.inputSchema.required) =
        [["a", "b"], ["a", "b"], ["a", "b"], ["a", "b"], ["base", "exponent"],
         ["number"], [], ["number"]] ∧
    Template.handle_list_tools.map Tool.name = ["echo", "calculate"] ∧
    (Template.handle_list_tools.map Tool.name).Nodup :=
  ⟨rfl, by decide, rfl, rfl, rfl, by decide⟩

/-- Every successful outcome of the calculator dispatch body is a single
text content block (helper for the non-emptiness invariant). -/
theorem calc_body_shape (randint : Int → Int → Int) (name : String)
    (args : List (String × Val)) (r : CallToolResult)
    (h : Calculator.callToolBody randint name args = Except.ok r) :
    ∃ s, r = textResult s := by
  unfold Calculator.callToolBody at h
  by_cases h1 : name = "add"
  · rw [if_pos h1] at h
    simp only [] at h
    repeat' split at h
    all_goals first
      | exact Except.noConfusion h
      | (injection h with h; exact ⟨_, h.symm⟩)
  rw [if_neg h1] at h
  by_cases h2 : name = "subtract"
  · rw [if_pos h2] at h
    simp only [] at h
    repeat' split at h
    all_goals first
      | exact Except.noConfusion h
      | (injection h with h; exact ⟨_, h.symm⟩)
  rw [if_neg h2] at h
  by_cases h3 : name = "multiply"
  · rw [if_pos h3] at h
    simp only [] at h
    repeat' split at h
    all_goals first
      | exact Except.noConfusion h
      | (injection h with h; exact ⟨_, h.symm⟩)
  rw [if_neg h3] at h
  by_cases h4 : name = "divide"
  · rw [if_pos h4] at h
    simp only [] at h
    repeat' split at h
    all_goals first
      | exact Except.noConfusion h
      | (injection h with h; exact ⟨_, h.symm⟩)
  rw [if_neg h4] at h
  by_cases h5 : name = "power"
  · rw [if_pos h5] at h
    simp only [] at h
    repeat' split at h
    all_goals first
      | exact Except.noConfusion h
      | (injection h with h; exact ⟨_, h.symm⟩)
  rw [if_neg h5] at h
  by_cases h6 : name = "square_root"
  · rw [if_pos h6] at h
    simp only [] at h
    repeat' split at h
    all_goals first
      | exact Except.noConfusion h
      | (injection h with h; exact ⟨_, h.symm⟩)
  rw [if_neg h6] at h
  by_cases h7 : name = "random_number"
  · rw [if_pos h7] at h
    simp only [] at h
    repeat' split at h
    all_goals first
      | exact Except.noConfusion h
      | (injection h with h; exact ⟨_, h.symm⟩)
  rw [if_neg h7] at h
  by_cases h8 : name = "factorial"
  · rw [if_pos h8] at h
    simp only [] at h
    repeat' split at h
    all_goals first
      | exact Except.noConfusion h
      | (injection h with h; exact ⟨_, h.symm⟩)
  rw [if_neg h8] at h
  injection h with h
  exact ⟨_, h.symm⟩

/-- Every successful outcome of the template dispatch body is a single
text content block (helper for the non-emptiness invariant). -/
theorem tmpl_body_shape (ev : Val → Except String Val) (name : String)
    (args : List (String × Val)) (r : CallToolResult)
    (h : Template.callToolBody ev name args = Except.ok r) :
    ∃ s, r = textResult s := by
  unfold Template.callToolBody at h
  by_cases h1 : name = "echo"
  · rw [if_pos h1] at h
    simp only [] at h
    injection h with h
    exact ⟨_, h.symm⟩
  rw [if_neg h1] at h
  by_cases h2 : name = "calculate"
  · rw [if_pos h2] at h
    simp only [] at h
    repeat' split at h
    all_goals (injection h with h; exact ⟨_, h.symm⟩)
  rw [if_neg h2] at h
  injection h with h
  exact ⟨_, h.symm⟩

/-- C9: every result of CallTool and every result of ReadResource, in
both servers and on every input (success, unknown name, guard message or
caught fault), carries a non-empty content sequence. -/
theorem c9_nonempty_results :
    (∀ randint name args,
        (Calculator.handle_call_tool randint name args).content ≠ []) ∧
    (∀ uri, (Calculator.handle_read_resource uri).contents ≠ []) ∧
    (∀ ev name args, (Template.handle_call_tool ev name args).content ≠ []) ∧
    (∀ uri, (Template.handle_read_resource uri).contents ≠ []) := by
  refine ⟨?_, ?_, ?_, ?_⟩
  · intro randint name args
    unfold Calculator.handle_call_tool
    cases hb : Calculator.callToolBody randint name args with
    | error e => simp [textResult]
    | ok r =>
      obtain ⟨s, rfl⟩ := calc_body_shape randint name args r hb
      simp [textResult]
  · intro uri
    unfold Calculator.handle_read_resource
    cases hb : Calculator.readResourceBody uri with
    | error e => simp
    | ok r =>
      unfold Calculator.readResourceBody at hb
      repeat' split at hb
      all_goals (injection hb with hb; rw [← hb]; simp)
  · intro ev name args
    unfold Template.handle_call_tool
    cases hb : Template.callToolBody ev name args with
    | error e => simp [textResult]
    | ok r =>
      obtain ⟨s, rfl⟩ := tmpl_body_shape ev name args r hb
      simp [textResult]
  · intro uri
    unfold Template.handle_read_resource
    cases hb : Template.readResourceBody uri with
    | error e => simp
    | ok r =>
      unfold Template.readResourceBody at hb
      repeat' split at hb
      all_goals (injection hb with hb; rw [← hb]; simp)

/-- C8 counterexample: calling `factorial` with the non-integral number
2.5 (the rational `mkRat 5 2`) is not rejected with a wrong-type
failure — no type validation runs, the guards pass, the value is
truncated by `int()` to 2 and the handler computes 2! = 2, answering
"2.5! = 2". -/
theorem c8_counterexample :
    Calculator.callToolBody idRandint "factorial" [("number", Val.float (mkRat 5 2))] =
        Except.ok (textResult "2.5! = 2") ∧
    Calculator.handle_call_tool idRandint "factorial" [("number", Val.float (mkRat 5 2))] =
        textResult "2.5! = 2" :=
  ⟨rfl, by decide⟩

/-- C8 amended: the server performs no schema type validation; a
non-integral numeric value for `factorial`'s integer-declared parameter
passes the sign and size guards and is truncated toward zero by `int()`,
and the handler returns "<number>! = <factorial of the truncation>".
Quantified over the binary64-exact domain: dyadic rationals with
denominator dividing 1024 in [0, 170], where the value is an exact
binary64 float whose `repr` is the exact positional expansion that
`floatRepr` computes (per `floatReprNN`). -/
theorem c8_amended_truncation (q : ℚ) (_hden : q.den ∣ 1024)
    (h0 : 0 ≤ q) (h170 : q ≤ 170) :
    ∀ randint, Calculator.handle_call_tool randint "factorial"
        [("number", Val.float q)] =
      textResult (floatRepr q ++ "! = " ++
        toString ((Nat.factorial (pyTrunc q).toNat : ℤ))) := by
  intro randint
  have hneg : ¬(q < 0) := not_lt.2 h0
  have hbig : ¬((170 : ℚ) < q) := not_lt.2 h170
  have hfl : ¬(pyTrunc q < 0) := by
    unfold pyTrunc
    rw [if_pos (Rat.num_nonneg.2 h0)]
    exact not_lt.2 (Int.natCast_nonneg _)
  unfold Calculator.handle_call_tool Calculator.callToolBody
  rw [if_neg (by decide), if_neg (by decide), if_neg (by decide), if_neg (by decide),
      if_neg (by decide), if_neg (by decide), if_neg (by decide), if_pos rfl]
  simp [getArg, pyLt, pyGt, numVal, pyToInt, mathFactorial, pyStr, hneg, hbig, hfl]

/-- Witness for the amended C8 at the claim's concrete input 2.5. -/
theorem c8_amended_truncation_witness :
    (mkRat 5 2 : ℚ).den ∣ 1024 ∧ (0 : ℚ) ≤ mkRat 5 2 ∧ (mkRat 5 2 : ℚ) ≤ 170 ∧
    Calculator.handle_call_tool idRandint "factorial" [("number", Val.float (mkRat 5 2))] =
      textResult "2.5! = 2" :=
  ⟨by decide, by decide, by decide,
   (c8_amended_truncation (mkRat 5 2) (by decide) (by decide) (by decide) idRandint).trans
     (by decide)⟩

/-- C10: every call to `divide` whose divisor argument equals zero is
answered with the text "Error: Division by zero is not allowed" without
evaluating the division (the dispatch body succeeds — no
ZeroDivisionError arises); with a non-zero divisor dividing the dividend
the answer is "<a> ÷ <b> = <a/b>" for the true quotient.  The quotient
conjunct is quantified over exact integer quotients of magnitude below
10^15, where binary64 division is exact and `repr` prints the exact
"<quotient>.0" expansion that `floatRepr` computes (per `floatReprNN`);
inexact quotients are rounded by binary64 and lie outside the rational
model. -/
theorem c10_divide_guard :
    (∀ randint args, pyEqZero (getArg args "b" (Val.int 1)) = true →
        Calculator.callToolBody randint "divide" args =
          Except.ok (textResult "Error: Division by zero is not allowed") ∧
        Calculator.handle_call_tool randint "divide" args =
          textResult "Error: Division by zero is not allowed") ∧
    (∀ randint (a b : Int), b ≠ 0 → b ∣ a → (a / b).natAbs < 10 ^ 15 →
        Calculator.handle_call_tool randint "divide"
            [("a", Val.int a), ("b", Val.int b)] =
          textResult (toString a ++ " ÷ " ++ toString b ++ " = " ++
            floatRepr ((a : ℚ) / (b : ℚ)))) := by
  constructor
  · intro randint args h
    have hbody : Calculator.callToolBody randint "divide" args =
        Except.ok (textResult "Error: Division by zero is not allowed") := by
      unfold Calculator.callToolBody
      rw [if_neg (by decide), if_neg (by decide), if_neg (by decide), if_pos rfl]
      simp only []
      rw [if_pos h]
    exact ⟨hbody, by unfold Calculator.handle_call_tool; rw [hbody]⟩
  · intro randint a b hb _ _
    have ha : getArg [("a", Val.int a), ("b", Val.int b)] "a" (Val.int 0) = Val.int a := rfl
    have hbarg : getArg [("a", Val.int a), ("b", Val.int b)] "b" (Val.int 1) = Val.int b := rfl
    unfold Calculator.handle_call_tool Calculator.callToolBody
    rw [if_neg (by decide), if_neg (by decide), if_neg (by decide), if_pos rfl]
    simp only []
    rw [ha, hbarg]
    simp [pyEqZero, hb, pyTrueDiv, pyStr]

/-- Witness for C10 at divisor 0 (guard taken, no fault) and at the
concrete division 15 / 3 (true quotient 5.0). -/
theorem c10_divide_guard_witness :
    pyEqZero (getArg [("a", Val.int 10), ("b", Val.int 0)] "b" (Val.int 1)) = true ∧
    Calculator.handle_call_tool idRandint "divide"
        [("a", Val.int 10), ("b", Val.int 0)] =
      textResult "Error: Division by zero is not allowed" ∧
    Calculator.handle_call_tool idRandint "divide"
        [("a", Val.int 15), ("b", Val.int 3)] =
      textResult "15 ÷ 3 = 5.0" :=
  ⟨rfl,
   (c10_divide_guard.1 idRandint [("a", Val.int 10), ("b", Val.int 0)] rfl).2,
   (c10_divide_guard.2 idRandint 15 3 (by decide) (by norm_num) (by decide)).trans (by
     rw [show ((15 : Int) : ℚ) / (((3 : Int)) : ℚ) = 5 by norm_num]
     decide)⟩
